import Mathlib

/-!
A verification development for the modal dialog coordinator of the todo
application (source: `src/src/modalService.ts`).

The embedding is shallow: the TypeScript option records become Lean
structures, optional (`?:`) attributes become `Option`s, the
`string | null` cancel label becomes `Option (Option String)`
(`none` = unset, `some none` = explicit null, `some (some s)` = a string),
a JS `Record<string, string>` becomes an association list with
overwrite-on-existing-key insertion, and the module-level coordinator
state (`activeModal` / `activeResolver` / `modalQueue` plus the host
element's children) becomes an explicit state type with a step function
over open/close events.
-/

/-- Kinds of form controls (`ModalFieldType`). -/
inductive ModalFieldType
  | text
  | textarea
  | select
  | date
deriving DecidableEq

/-- Panel / confirm-button color variant (`ModalVariant`). -/
inductive ModalVariant
  | default
  | danger
deriving DecidableEq

/-- One field descriptor (`ModalField`). Optional TS attributes are `Option`s.
Each entry of `options` is a `(label, value)` pair. -/
structure ModalField where
  name : String
  label : String
  type : ModalFieldType
  required : Option Bool := none
  placeholder : Option String := none
  description : Option String := none
  options : Option (List (String × String)) := none
  initialValue : Option String := none
deriving DecidableEq

/-- The options record accepted by `openModal`
(`BaseModalOptions & Partial<FormModalOptions>`). -/
structure ModalOptions where
  title : String
  message : Option String := none
  confirmLabel : Option String := none
  cancelLabel : Option (Option String) := none
  variant : Option ModalVariant := none
  dismissible : Option Bool := none
  fields : Option (List ModalField) := none
deriving DecidableEq

/-- A dialog outcome (`ModalResult`): `values` is absent (`none`) unless the
close actually attached a record. -/
structure ModalResult where
  confirmed : Bool
  values : Option (List (String × String)) := none
deriving DecidableEq

/-- JS object write `m[k] = v`: overwrite in place when the key exists,
otherwise append at the end (JS string-key insertion order; object keys are
unique, so the first occurrence is the only one). -/
def recordSet : List (String × String) → String → String → List (String × String)
  | [], k, v => [(k, v)]
  | p :: t, k, v => if p.1 = k then (k, v) :: t else p :: recordSet t k v

/-- JS object read `m[k]`. -/
def recordGet : List (String × String) → String → Option String
  | [], _ => none
  | p :: t, k => if p.1 = k then some p.2 else recordGet t k

/-- Truthiness of the optional `required` flag (`if (field.required)`). -/
def isRequired (f : ModalField) : Bool := f.required.getD false

/-- JS `String.prototype.trim()`: strip leading and trailing whitespace. -/
def jsTrim (s : String) : String :=
  String.mk
    (((s.toList.dropWhile Char.isWhitespace).reverse.dropWhile
        Char.isWhitespace).reverse)

/-- The control value `renderField` leaves in the DOM before any user input:
text and textarea controls get `initialValue ?? ""`; a date input gets
`initialValue` only when truthy; a select ends up on the option marked
selected (`initialValue !== undefined && initialValue === option.value`),
falling back to its first option (standard single-select behavior), or `""`
with no options at all. -/
def initialControlValue (f : ModalField) : String :=
  match f.type with
  | ModalFieldType.textarea => f.initialValue.getD ""
  | ModalFieldType.select =>
      match (f.options.getD []).find? (fun o => f.initialValue = some o.2) with
      | some o => o.2
      | none => ((f.options.getD []).head?.map (fun o => o.2)).getD ""
  | ModalFieldType.date =>
      match f.initialValue with
      | some v => if v = "" then "" else v
      | none => ""
  | ModalFieldType.text => f.initialValue.getD ""

/-- Runtime state of one rendered field (`FormFieldElements`): its descriptor,
the control's current value, and whether the error caption is shown
(`error.dataset.active`). -/
structure FieldState where
  field : ModalField
  value : String
  errorActive : Bool
deriving DecidableEq

/-- The field state right after `renderField`. -/
def initialFieldState (f : ModalField) : FieldState :=
  { field := f, value := initialControlValue f, errorActive := false }

/-- A field fails validation iff it is required and its trimmed value is
empty (`if (field.required) ... if (!input.value.trim())`). -/
def fieldInvalid (x : FieldState) : Bool :=
  isRequired x.field && jsTrim x.value == ""

/-- `validateFields`: one forEach pass over the whole field set; every invalid
field gets its error caption shown, and the shared `valid` flag ends up true
iff no field was invalid. -/
def validateFields (fs : List FieldState) : List FieldState × Bool :=
  (fs.map (fun x => if fieldInvalid x then { x with errorActive := true } else x),
   fs.all (fun x => !fieldInvalid x))

/-- `gatherValues`: writes each field's raw current value (no trimming) under
`field.name` into a fresh record, in field order. -/
def gatherValues (fs : List FieldState) : List (String × String) :=
  fs.foldl (fun m x => recordSet m x.field.name x.value) []

/-- A user input event on the control named `n`: sets its current value and
hides the error caption again (the control's `input` listener). -/
def setFieldValue (fs : List FieldState) (n v : String) : List FieldState :=
  fs.map (fun x =>
    if x.field.name = n then { x with value := v, errorActive := false } else x)

/-- `options.dismissible !== false`: unset defaults to dismissible. -/
def dismissibleOf (o : ModalOptions) : Bool := o.dismissible != some false

/-- `options.fields && options.fields.length > 0`: a form element is created
only for a present, non-empty field list. -/
def hasFormOf (o : ModalOptions) : Bool :=
  match o.fields with
  | some fl => decide (0 < fl.length)
  | none => false

/-- Footer cancel label: an unset (`undefined`) label picks the per-kind
default — "Cancel" when the request has a `fields` attribute, else "Close" —
while an explicit value (string or null) is kept as given. -/
def resolvedCancelLabel (o : ModalOptions) : Option String :=
  match o.cancelLabel with
  | none => some (if o.fields.isSome then "Cancel" else "Close")
  | some c => c

/-- Footer confirm label: `options.confirmLabel ?? (options.fields ? "Save" : "OK")`. -/
def resolvedConfirmLabel (o : ModalOptions) : String :=
  o.confirmLabel.getD (if o.fields.isSome then "Save" else "OK")

/-- HTML button type attribute. -/
inductive ButtonType
  | button
  | submit
deriving DecidableEq

/-- The confirm button is a submit control exactly when a form was created
(`type: form ? "submit" : "button"`). -/
def confirmButtonType (o : ModalOptions) : ButtonType :=
  if hasFormOf o then ButtonType.submit else ButtonType.button

/-- One dialog's run, seen from that dialog: whether its overlay is still the
active modal, the one-shot resolution of its promise, its rendered form
fields, and the resolved flags of its options. -/
structure ModalSession where
  isOpen : Bool
  outcome : Option ModalResult
  hasForm : Bool
  dismissible : Bool
  fieldStates : List FieldState
deriving DecidableEq

/-- The session state right after `start` ran for a request with options `o`. -/
def initialSession (o : ModalOptions) : ModalSession :=
  { isOpen := true
    outcome := none
    hasForm := hasFormOf o
    dismissible := dismissibleOf o
    fieldStates :=
      if hasFormOf o then (o.fields.getD []).map initialFieldState else [] }

/-- `closeModal`, restricted to one session: a no-op when this modal is no
longer active (`if (!activeModal) return`); otherwise the overlay is torn down
and the stashed resolver fires exactly once with `r`. -/
def sessionClose (r : ModalResult) (s : ModalSession) : ModalSession :=
  if s.isOpen then { s with isOpen := false, outcome := some r } else s

/-- `resolveAndClose(confirmed)`: a confirmed close of a form dialog first
validates every field — on failure only the error marks change and the close
is aborted — then gathers the raw values and closes confirmed; any other close
carries no `values`. -/
def resolveAndClose (confirmed : Bool) (s : ModalSession) : ModalSession :=
  if confirmed && s.hasForm then
    let validated := validateFields s.fieldStates
    if validated.2 = false then { s with fieldStates := validated.1 }
    else
      sessionClose { confirmed := true, values := some (gatherValues validated.1) }
        { s with fieldStates := validated.1 }
  else
    sessionClose { confirmed := confirmed, values := none } s

/-- DOM element kinds the focusable-element selector distinguishes. -/
inductive ElemKind
  | anchor
  | button
  | input
  | textarea
  | select
  | other
deriving DecidableEq

/-- A panel element, carrying just the attributes the selector inspects. -/
structure Elem where
  id : Nat
  kind : ElemKind
  disabled : Bool := false
  hidden : Bool := false
  hasHref : Bool := false
  tabindex : Option Int := none
deriving DecidableEq

/-- The selector of `getFocusableElements`: anchors with an href, non-disabled
buttons / textareas / inputs / selects, and tabindexed elements other than
tabindex="-1". -/
def matchesFocusableSelector (e : Elem) : Bool :=
  (e.kind == ElemKind.anchor && e.hasHref)
  || (e.kind == ElemKind.button && !e.disabled)
  || (e.kind == ElemKind.textarea && !e.disabled)
  || (e.kind == ElemKind.input && !e.disabled)
  || (e.kind == ElemKind.select && !e.disabled)
  || (e.tabindex.isSome && e.tabindex != some (-1))

/-- `getFocusableElements`: selector matches in DOM order, minus elements with
a `hidden` attribute. -/
def getFocusableElements (es : List Elem) : List Elem :=
  (es.filter matchesFocusableSelector).filter (fun e => !e.hidden)

/-- The keys the trap's keydown handler distinguishes. -/
inductive Key
  | tab
  | escape
  | other
deriving DecidableEq

/-- A keyboard event: which key, and whether Shift was held. -/
structure KeyEvent where
  key : Key
  shiftKey : Bool
deriving DecidableEq

/-- Observable effect of one keydown inside the trap: whether the default was
suppressed, the element focus moved to, and whether dismissal was requested. -/
structure TrapEffect where
  preventDefault : Bool
  focusTarget : Option Elem
  dismissRequested : Bool
deriving DecidableEq

/-- The effect of a keydown the handler ignores. -/
def noTrapEffect : TrapEffect :=
  { preventDefault := false, focusTarget := none, dismissRequested := false }

/-- `handleKeyDown` of the focus trap: Tab on the last focusable wraps focus to
the first and Shift+Tab on the first wraps to the last (comparing
`document.activeElement` against the snapshot's ends); Escape requests
dismissal only when the dialog is dismissible. `focusable` is the snapshot
taken once at activation. -/
def handleKeyDown (focusable : List Elem) (active : Option Elem)
    (dismissible : Bool) (ev : KeyEvent) : TrapEffect :=
  let tabEffect : TrapEffect :=
    if ev.key = Key.tab then
      match focusable.head?, focusable.getLast? with
      | some first, some last =>
          if ev.shiftKey then
            if active = some first then
              { preventDefault := true, focusTarget := some last,
                dismissRequested := false }
            else noTrapEffect
          else
            if active = some last then
              { preventDefault := true, focusTarget := some first,
                dismissRequested := false }
            else noTrapEffect
      | _, _ => noTrapEffect
    else noTrapEffect
  let dismiss : Bool := (ev.key == Key.escape) && dismissible
  { preventDefault := tabEffect.preventDefault || dismiss,
    focusTarget := tabEffect.focusTarget,
    dismissRequested := dismiss }

/-- The control element each field type renders to. -/
def fieldControlKind : ModalFieldType → ElemKind
  | ModalFieldType.text => ElemKind.input
  | ModalFieldType.textarea => ElemKind.textarea
  | ModalFieldType.select => ElemKind.select
  | ModalFieldType.date => ElemKind.input

/-- The focus-relevant elements of the built panel, in DOM order: one control
per form field, then the cancel button when the resolved cancel label is not
null, then the confirm button (always rendered, never disabled or hidden).
Headings, captions and field labels never match the selector and are elided. -/
def buildPanelElems (o : ModalOptions) : List Elem :=
  let fieldControls :=
    (if hasFormOf o then o.fields.getD [] else []).enum.map
      (fun p => { id := p.1 + 2, kind := fieldControlKind p.2.type : Elem })
  let cancelButton :=
    match resolvedCancelLabel o with
    | some _ => [{ id := 0, kind := ElemKind.button : Elem }]
    | none => []
  fieldControls ++ cancelButton ++ [{ id := 1, kind := ElemKind.button : Elem }]

/-- One keydown dispatched to the active modal: `activateFocusTrap` attaches
the handler only when the focusable snapshot is non-empty, and its dismiss
callback is `() => resolveAndClose(false)`. -/
def sessionKeyDown (o : ModalOptions) (active : Option Elem) (ev : KeyEvent)
    (s : ModalSession) : ModalSession × TrapEffect :=
  let focusable := getFocusableElements (buildPanelElems o)
  if focusable.isEmpty then (s, noTrapEffect)
  else
    let eff := handleKeyDown focusable active (dismissibleOf o) ev
    ((if eff.dismissRequested then resolveAndClose false s else s), eff)

/-- `showAlertModal` forwards its options with
`cancelLabel: options.cancelLabel ?? null`: both unset and explicit null
become null, while a caller-supplied string is kept as is. -/
def showAlertModalOptions (o : ModalOptions) : ModalOptions :=
  { o with
    cancelLabel := some (match o.cancelLabel with
      | some (some s) => some s
      | _ => none) }

/-- `showConfirmModal` forwards `confirmLabel ?? "Confirm"` and
`cancelLabel ?? "Cancel"` (the nullish default also replaces explicit null). -/
def showConfirmModalOptions (o : ModalOptions) : ModalOptions :=
  { o with
    confirmLabel := some (o.confirmLabel.getD "Confirm")
    cancelLabel := some (some (match o.cancelLabel with
      | some (some s) => s
      | _ => "Cancel")) }

/-- `showConfirmModal` resolves to `result.confirmed`. -/
def showConfirmModalResult (r : ModalResult) : Bool := r.confirmed

/-- `showFormModal` resolves to null unless the outcome is confirmed and
actually carries a `values` record. -/
def showFormModalResult (r : ModalResult) : Option (List (String × String)) :=
  if !r.confirmed || r.values.isNone then none else r.values

/-- The module-level coordinator state: the host element's mounted overlays,
the `activeModal` and `activeResolver` slots, the FIFO `modalQueue` of
deferred start closures, and a log of promise resolutions in the order they
fired. Overlays, resolvers and queued requests are identified by the `Nat`
id of their `openModal` call. -/
structure CoordState where
  hostChildren : List Nat
  activeModal : Option Nat
  activeResolver : Option Nat
  modalQueue : List Nat
  resolved : List (Nat × ModalResult)
deriving DecidableEq

/-- The coordinator before any request: empty host, no active modal. -/
def initState : CoordState :=
  { hostChildren := [], activeModal := none, activeResolver := none,
    modalQueue := [], resolved := [] }

/-- The `start` closure of request `id`: mounts the overlay into the host and
records the request's overlay and resolver as active. -/
def startModal (id : Nat) (s : CoordState) : CoordState :=
  { s with
    hostChildren := s.hostChildren ++ [id]
    activeModal := some id
    activeResolver := some id }

/-- `openModal`: with a modal already active the start closure is pushed onto
`modalQueue`; otherwise it runs immediately. -/
def openStep (id : Nat) (s : CoordState) : CoordState :=
  match s.activeModal with
  | some _ => { s with modalQueue := s.modalQueue ++ [id] }
  | none => startModal id s

/-- `closeModal(result)`: returns immediately when no modal is active;
otherwise removes the active overlay from the host, clears both slots —
the resolver slot before it is invoked — fires the stashed resolver, and
then pops and starts the head of the queue, if any. -/
def closeStep (r : ModalResult) (s : CoordState) : CoordState :=
  match s.activeModal with
  | none => s
  | some m =>
      let s1 := { s with
        hostChildren := s.hostChildren.filter (fun x => x ≠ m)
        activeModal := none }
      let s2 :=
        match s1.activeResolver with
        | none => s1
        | some rv =>
            { s1 with
              activeResolver := none
              resolved := s1.resolved ++ [(rv, r)] }
      match s2.modalQueue with
      | [] => s2
      | next :: rest => startModal next { s2 with modalQueue := rest }

/-- The coordinator events a page can trigger: an `openModal` call with a
fresh request id, or a terminal close action carrying its result. -/
inductive Event
  | openReq (id : Nat)
  | closeReq (r : ModalResult)
deriving DecidableEq

/-- One coordinator step. -/
def step (s : CoordState) (e : Event) : CoordState :=
  match e with
  | Event.openReq i => openStep i s
  | Event.closeReq r => closeStep r s

/-- Run a whole event trace from the pristine coordinator. -/
def run (evs : List Event) : CoordState := evs.foldl step initState

/-- The request ids of the open events of a trace, in order. -/
def openIds (evs : List Event) : List Nat :=
  evs.filterMap (fun e =>
    match e with
    | Event.openReq i => some i
    | Event.closeReq _ => none)

/-- Every id the coordinator still owes a resolution to or has already
resolved: the resolution log, the active slot, and the queue. -/
def liveIds (s : CoordState) : List Nat :=
  s.resolved.map Prod.fst ++ s.activeModal.toList ++ s.modalQueue

/-- Claim C9: button labels default by dialog kind — without an explicit
`confirmLabel` the confirm button reads "Save" when the request has a `fields`
attribute and "OK" otherwise; without an explicit `cancelLabel` the cancel
button reads "Cancel" (with `fields`) or "Close" (without), unless the cancel
action is explicitly suppressed with null; and `showConfirmModal` defaults the
labels to "Confirm" and "Cancel" instead. -/
theorem button_label_defaults (o : ModalOptions) :
    (o.confirmLabel = none →
      resolvedConfirmLabel o = if o.fields.isSome then "Save" else "OK")
    ∧ (o.cancelLabel = none →
      resolvedCancelLabel o = some (if o.fields.isSome then "Cancel" else "Close"))
    ∧ (o.cancelLabel = some none → resolvedCancelLabel o = none)
    ∧ (o.confirmLabel = none →
      (showConfirmModalOptions o).confirmLabel = some "Confirm")
    ∧ (o.cancelLabel = none →
      (showConfirmModalOptions o).cancelLabel = some (some "Cancel")) := by
  refine ⟨?_, ?_, ?_, ?_, ?_⟩ <;> intro h <;>
    simp [resolvedConfirmLabel, resolvedCancelLabel, showConfirmModalOptions, h]

/-- Witness for `button_label_defaults` on concrete non-form requests. -/
theorem button_label_defaults_witness :
    resolvedConfirmLabel { title := "t" } = "OK"
    ∧ resolvedCancelLabel { title := "t" } = some "Close"
    ∧ resolvedCancelLabel { title := "t", cancelLabel := some none } = none
    ∧ (showConfirmModalOptions { title := "t" }).confirmLabel = some "Confirm"
    ∧ (showConfirmModalOptions { title := "t" }).cancelLabel = some (some "Cancel") :=
  ⟨(button_label_defaults { title := "t" }).1 rfl,
   (button_label_defaults { title := "t" }).2.1 rfl,
   (button_label_defaults { title := "t", cancelLabel := some none }).2.2.1 rfl,
   (button_label_defaults { title := "t" }).2.2.2.1 rfl,
   (button_label_defaults { title := "t" }).2.2.2.2 rfl⟩

/-- Claim C6 counterexample: `showAlertModal` forwards
`cancelLabel: options.cancelLabel ?? null`, so a caller-supplied cancel label
is NOT suppressed — with `cancelLabel = "Dismiss"` the forwarded options
resolve to a non-null cancel label and `openModal` renders a cancel button,
contradicting "regardless of the cancelLabel the caller supplies, the cancel
action is suppressed". -/
theorem alert_cancel_not_always_suppressed :
    resolvedCancelLabel
      (showAlertModalOptions
        { title := "Heads up", cancelLabel := some (some "Dismiss") })
      = some "Dismiss" := rfl

/-- Claim C6 (amended): `showAlertModal` suppresses the cancel action exactly
when the caller left `cancelLabel` unset or explicitly null; a caller-supplied
string label is forwarded unchanged and the cancel button renders with it. -/
theorem alert_cancel_suppressed_when_unset (o : ModalOptions) :
    ((o.cancelLabel = none ∨ o.cancelLabel = some none) →
      resolvedCancelLabel (showAlertModalOptions o) = none)
    ∧ ∀ s : String, o.cancelLabel = some (some s) →
      resolvedCancelLabel (showAlertModalOptions o) = some s := by
  constructor
  · rintro (h | h) <;> simp [showAlertModalOptions, resolvedCancelLabel, h]
  · intro s h
    simp [showAlertModalOptions, resolvedCancelLabel, h]

/-- Witness for `alert_cancel_suppressed_when_unset` at concrete requests. -/
theorem alert_cancel_suppressed_when_unset_witness :
    resolvedCancelLabel (showAlertModalOptions { title := "t" }) = none
    ∧ resolvedCancelLabel
        (showAlertModalOptions { title := "t", cancelLabel := some (some "Keep") })
        = some "Keep" :=
  ⟨(alert_cancel_suppressed_when_unset { title := "t" }).1 (Or.inl rfl),
   (alert_cancel_suppressed_when_unset
      { title := "t", cancelLabel := some (some "Keep") }).2 "Keep" rfl⟩

/-- Claim C10: a `showFormModal` call whose `fields` array is empty creates no
form element, so its confirm button is a plain (non-submit) button whose click
resolves `{confirmed := true}` with no `values` record, and `showFormModal`
maps that outcome to null — the same null a cancellation produces. -/
theorem empty_fields_form_resolves_null (o : ModalOptions)
    (hf : o.fields = some []) :
    hasFormOf o = false
    ∧ confirmButtonType o = ButtonType.button
    ∧ resolveAndClose true (initialSession o)
        = { initialSession o with
            isOpen := false, outcome := some { confirmed := true, values := none } }
    ∧ showFormModalResult { confirmed := true, values := none } = none
    ∧ showFormModalResult { confirmed := false, values := none } = none := by
  have h1 : hasFormOf o = false := by simp [hasFormOf, hf]
  refine ⟨h1, ?_, ?_, rfl, rfl⟩
  · simp [confirmButtonType, h1]
  · simp [resolveAndClose, initialSession, sessionClose, h1]

/-- Witness for `empty_fields_form_resolves_null` on a concrete request. -/
theorem empty_fields_form_resolves_null_witness :
    hasFormOf { title := "t", fields := some [] } = false
    ∧ confirmButtonType { title := "t", fields := some [] } = ButtonType.button
    ∧ resolveAndClose true (initialSession { title := "t", fields := some [] })
        = { initialSession { title := "t", fields := some [] } with
            isOpen := false, outcome := some { confirmed := true, values := none } }
    ∧ showFormModalResult { confirmed := true, values := none } = none
    ∧ showFormModalResult { confirmed := false, values := none } = none :=
  empty_fields_form_resolves_null { title := "t", fields := some [] } rfl

theorem recordGet_recordSet_self (m : List (String × String)) (k v : String) :
    recordGet (recordSet m k v) k = some v := by
  induction m with
  | nil => simp [recordSet, recordGet]
  | cons p t ih =>
      by_cases h : p.1 = k
      · simp [recordSet, recordGet, h]
      · simp [recordSet, recordGet, h, ih]

theorem recordGet_recordSet_ne (m : List (String × String)) (k v k2 : String)
    (h : k2 ≠ k) : recordGet (recordSet m k v) k2 = recordGet m k2 := by
  induction m with
  | nil => simp [recordSet, recordGet, Ne.symm h]
  | cons p t ih =>
      by_cases hp : p.1 = k
      · have hp2 : p.1 ≠ k2 := by rw [hp]; exact Ne.symm h
        simp [recordSet, recordGet, hp, hp2, Ne.symm h]
      · simp [recordSet, recordGet, hp, ih]

theorem recordSet_preserves_isSome (m : List (String × String)) (k k2 v : String)
    (h : (recordGet m k).isSome = true) :
    (recordGet (recordSet m k2 v) k).isSome = true := by
  by_cases hk : k = k2
  · subst hk; simp [recordGet_recordSet_self]
  · rw [recordGet_recordSet_ne m k2 v k hk]; exact h

/-- The record write performed per field by `gatherValues`. -/
def gatherStep (m : List (String × String)) (x : FieldState) :
    List (String × String) :=
  recordSet m x.field.name x.value

theorem gatherValues_eq_foldl (fs : List FieldState) :
    gatherValues fs = fs.foldl gatherStep [] := rfl

theorem foldl_gatherStep_preserves_isSome (fs : List FieldState) :
    ∀ (m : List (String × String)) (k : String), (recordGet m k).isSome = true →
      (recordGet (fs.foldl gatherStep m) k).isSome = true := by
  induction fs with
  | nil => intro m k h; simpa using h
  | cons y t ih =>
      intro m k h
      exact ih (gatherStep m y) k (recordSet_preserves_isSome m k _ _ h)

theorem foldl_gatherStep_mem_isSome (fs : List FieldState) :
    ∀ (m : List (String × String)) (x : FieldState), x ∈ fs →
      (recordGet (fs.foldl gatherStep m) x.field.name).isSome = true := by
  induction fs with
  | nil => intro m x h; simp at h
  | cons y t ih =>
      intro m x h
      rcases List.mem_cons.1 h with rfl | hx
      · exact foldl_gatherStep_preserves_isSome t (gatherStep m x) x.field.name
          (by simp [gatherStep, recordGet_recordSet_self])
      · exact ih (gatherStep m y) x hx

theorem foldl_gatherStep_keys_untouched (fs : List FieldState) :
    ∀ (m : List (String × String)) (k : String),
      (∀ y ∈ fs, y.field.name ≠ k) →
      recordGet (fs.foldl gatherStep m) k = recordGet m k := by
  induction fs with
  | nil => intro m k _; rfl
  | cons y t ih =>
      intro m k h
      have hy : y.field.name ≠ k := h y (List.mem_cons_self y t)
      rw [List.foldl_cons, ih (gatherStep m y) k
        (fun z hz => h z (List.mem_cons_of_mem _ hz))]
      exact recordGet_recordSet_ne m y.field.name y.value k (Ne.symm hy)

theorem foldl_gatherStep_nodup_get (fs : List FieldState) :
    ∀ m : List (String × String), (fs.map fun x => x.field.name).Nodup →
      ∀ x ∈ fs, recordGet (fs.foldl gatherStep m) x.field.name = some x.value := by
  induction fs with
  | nil => intro m _ x hx; simp at hx
  | cons y t ih =>
      intro m hnd x hx
      have hcons : (∀ z ∈ t, ¬z.field.name = y.field.name)
          ∧ (t.map fun w => w.field.name).Nodup := by
        simpa [List.nodup_cons] using hnd
      rcases List.mem_cons.1 hx with rfl | hx2
      · rw [List.foldl_cons, foldl_gatherStep_keys_untouched t (gatherStep m x)
          x.field.name hcons.1]
        exact recordGet_recordSet_self m x.field.name x.value
      · exact ih (gatherStep m y) hcons.2 x hx2

theorem gatherValues_mem_isSome (fs : List FieldState) (x : FieldState)
    (hx : x ∈ fs) : (recordGet (gatherValues fs) x.field.name).isSome = true :=
  foldl_gatherStep_mem_isSome fs [] x hx

theorem gatherValues_nodup_get (fs : List FieldState)
    (hnd : (fs.map fun x => x.field.name).Nodup) (x : FieldState) (hx : x ∈ fs) :
    recordGet (gatherValues fs) x.field.name = some x.value :=
  foldl_gatherStep_nodup_get fs [] hnd x hx

theorem validateFields_valid_iff (fs : List FieldState) :
    (validateFields fs).2 = true ↔
      ∀ x ∈ fs, isRequired x.field = true → jsTrim x.value ≠ "" := by
  simp only [validateFields, List.all_eq_true, fieldInvalid, Bool.not_eq_true',
    Bool.and_eq_false_iff, beq_eq_false_iff_ne, ne_eq]
  constructor
  · intro h x hx hreq
    rcases h x hx with h1 | h2
    · rw [hreq] at h1
      exact absurd h1 (by decide)
    · exact h2
  · intro h x hx
    by_cases hr : isRequired x.field = true
    · exact Or.inr (h x hx hr)
    · exact Or.inl (by simpa using hr)

theorem validateFields_invalid_of_mem (fs : List FieldState) (x : FieldState)
    (hx : x ∈ fs) (hreq : isRequired x.field = true) (htr : jsTrim x.value = "") :
    (validateFields fs).2 = false := by
  by_contra hc
  rw [Bool.not_eq_false] at hc
  exact (validateFields_valid_iff fs).1 hc x hx hreq htr

theorem map_mark_eq_self (fs : List FieldState)
    (h : ∀ x ∈ fs, fieldInvalid x = false) :
    (fs.map fun x => if fieldInvalid x then { x with errorActive := true } else x)
      = fs := by
  induction fs with
  | nil => rfl
  | cons x t ih =>
      have hx := h x (List.mem_cons_self x t)
      simp [hx, ih (fun z hz => h z (List.mem_cons_of_mem _ hz))]

theorem validateFields_fst_of_valid (fs : List FieldState)
    (h : (validateFields fs).2 = true) : (validateFields fs).1 = fs := by
  have h3 := (validateFields_valid_iff fs).1 h
  have h2 : ∀ x ∈ fs, fieldInvalid x = false := by
    intro x hx
    by_cases hr : isRequired x.field = true
    · have h4 := h3 x hx hr
      simp [fieldInvalid, hr, h4]
    · have hr2 : isRequired x.field = false := by simpa using hr
      simp [fieldInvalid, hr2]
  simpa only [validateFields] using map_mark_eq_self fs h2

theorem gatherValues_validateFields (fs : List FieldState) :
    gatherValues (validateFields fs).1 = gatherValues fs := by
  simp only [gatherValues_eq_foldl, validateFields, List.foldl_map]
  congr 1
  funext m x
  by_cases h : fieldInvalid x <;> simp [gatherStep, h]

/-- Claim C8: validation and extraction disagree on trimming by design — a
required field passes validation iff its value is non-empty after trimming
(non-required fields always pass); the value placed in the confirmed outcome
record is the control's raw value with no trimming, so leading and trailing
whitespace is kept; and a whitespace-only value in a required field aborts the
close, leaving the modal open and unresolved. -/
theorem validation_trims_extraction_does_not (fs : List FieldState)
    (s : ModalSession) :
    ((validateFields fs).2 = true ↔
      ∀ x ∈ fs, isRequired x.field = true → jsTrim x.value ≠ "")
    ∧ ((fs.map fun x => x.field.name).Nodup →
      ∀ x ∈ fs, recordGet (gatherValues fs) x.field.name = some x.value)
    ∧ (s.isOpen = true → s.hasForm = true →
      (∃ x ∈ s.fieldStates, isRequired x.field = true ∧ jsTrim x.value = "") →
      (resolveAndClose true s).outcome = s.outcome
      ∧ (resolveAndClose true s).isOpen = true) := by
  refine ⟨validateFields_valid_iff fs,
    fun hnd x hx => gatherValues_nodup_get fs hnd x hx, ?_⟩
  intro hOpen hForm hex
  rcases hex with ⟨x, hx, hreq, htr⟩
  have hval := validateFields_invalid_of_mem s.fieldStates x hx hreq htr
  simp [resolveAndClose, hForm, hval, hOpen]

/-- Witness for `validation_trims_extraction_does_not`: a required field whose
value is only spaces fails validation and blocks the close, while a confirmed
field keeps its surrounding whitespace verbatim. -/
theorem validation_trims_extraction_does_not_witness :
    ((validateFields
        [{ field := { name := "n", label := "N", type := ModalFieldType.text,
                      required := some true }, value := "   ",
           errorActive := false }]).2 = true ↔
      ∀ x ∈ ([{ field := { name := "n", label := "N", type := ModalFieldType.text,
                           required := some true }, value := "   ",
                errorActive := false }] : List FieldState),
        isRequired x.field = true → jsTrim x.value ≠ "")
    ∧ recordGet
        (gatherValues
          [{ field := { name := "n", label := "N", type := ModalFieldType.text },
             value := "  hi  ", errorActive := false }]) "n" = some "  hi  "
    ∧ (resolveAndClose true
        { isOpen := true, outcome := none, hasForm := true, dismissible := true,
          fieldStates :=
            [{ field := { name := "n", label := "N", type := ModalFieldType.text,
                          required := some true }, value := "   ",
               errorActive := false }] }).outcome = none := by
  have h := validation_trims_extraction_does_not
    [{ field := { name := "n", label := "N", type := ModalFieldType.text,
                  required := some true }, value := "   ", errorActive := false }]
    { isOpen := true, outcome := none, hasForm := true, dismissible := true,
      fieldStates :=
        [{ field := { name := "n", label := "N", type := ModalFieldType.text,
                      required := some true }, value := "   ",
           errorActive := false }] }
  refine ⟨h.1, ?_, ?_⟩
  · have h2 := (validation_trims_extraction_does_not
      [{ field := { name := "n", label := "N", type := ModalFieldType.text },
         value := "  hi  ", errorActive := false }]
      { isOpen := false, outcome := none, hasForm := false, dismissible := true,
        fieldStates := [] }).2.1 (by decide)
    have h3 := h2
      { field := { name := "n", label := "N", type := ModalFieldType.text },
        value := "  hi  ", errorActive := false }
      (List.mem_singleton.2 rfl)
    simpa using h3
  · have h4 := h.2.2 rfl rfl
      ⟨{ field := { name := "n", label := "N", type := ModalFieldType.text,
                    required := some true }, value := "   ", errorActive := false },
       List.mem_singleton.2 rfl, by decide, by decide⟩
    simpa using h4.1

theorem confirm_mem_focusable (o : ModalOptions) :
    ({ id := 1, kind := ElemKind.button } : Elem)
      ∈ getFocusableElements (buildPanelElems o) := by
  unfold getFocusableElements
  rw [List.mem_filter, List.mem_filter]
  refine ⟨⟨?_, rfl⟩, rfl⟩
  simp [buildPanelElems]

theorem focusable_not_empty (o : ModalOptions) :
    (getFocusableElements (buildPanelElems o)).isEmpty = false := by
  have h := confirm_mem_focusable o
  cases hl : getFocusableElements (buildPanelElems o) with
  | nil => rw [hl] at h; exact absurd h (List.not_mem_nil _)
  | cons a t => rfl

/-- Claim C5: the rendered panel always holds at least one focusable element
(the confirm button), so the trap's key handler is attached; for a request
with `dismissible = true` or unset (defaulting to true), Escape resolves the
active modal with `confirmed = false`, while for `dismissible = false` Escape
leaves the modal open, unresolved, and has no effect at all. -/
theorem escape_dismiss_semantics (o : ModalOptions) (a : Option Elem) (sh : Bool) :
    (dismissibleOf o = true →
      (sessionKeyDown o a { key := Key.escape, shiftKey := sh }
          (initialSession o)).1
        = { initialSession o with
            isOpen := false,
            outcome := some { confirmed := false, values := none } })
    ∧ (dismissibleOf o = false →
      (sessionKeyDown o a { key := Key.escape, shiftKey := sh }
          (initialSession o)).1 = initialSession o
      ∧ (sessionKeyDown o a { key := Key.escape, shiftKey := sh }
          (initialSession o)).2 = noTrapEffect) := by
  have hne := focusable_not_empty o
  constructor
  · intro hd
    simp [sessionKeyDown, hne, handleKeyDown, hd, resolveAndClose, sessionClose,
      initialSession, noTrapEffect]
  · intro hd
    constructor <;>
      simp [sessionKeyDown, hne, handleKeyDown, hd, resolveAndClose,
        sessionClose, initialSession, noTrapEffect]

/-- Witness for `escape_dismiss_semantics`: a default (dismissible) alert
closes cancelled on Escape; a `dismissible = false` request ignores it. -/
theorem escape_dismiss_semantics_witness :
    (sessionKeyDown { title := "t" } none { key := Key.escape, shiftKey := false }
        (initialSession { title := "t" })).1
      = { initialSession { title := "t" } with
          isOpen := false, outcome := some { confirmed := false, values := none } }
    ∧ (sessionKeyDown { title := "t", dismissible := some false } none
        { key := Key.escape, shiftKey := false }
        (initialSession { title := "t", dismissible := some false })).1
      = initialSession { title := "t", dismissible := some false } :=
  ⟨(escape_dismiss_semantics { title := "t" } none false).1 rfl,
   ((escape_dismiss_semantics { title := "t", dismissible := some false }
      none false).2 rfl).1⟩

/-- Claim C7: over the focusable snapshot taken at trap activation (in DOM
order), Tab with focus on the last focusable element suppresses the default
and moves focus to the first, and Shift+Tab with focus on the first moves it
to the last — in particular, with exactly two focusable controls Tab from the
second wraps to the first and Shift+Tab from the first wraps to the second. -/
theorem focus_trap_wrap (focusable : List Elem) (d : Bool) (first last : Elem)
    (h1 : focusable.head? = some first) (h2 : focusable.getLast? = some last) :
    handleKeyDown focusable (some last) d { key := Key.tab, shiftKey := false }
      = { preventDefault := true, focusTarget := some first,
          dismissRequested := false }
    ∧ handleKeyDown focusable (some first) d { key := Key.tab, shiftKey := true }
      = { preventDefault := true, focusTarget := some last,
          dismissRequested := false } := by
  constructor <;> simp [handleKeyDown, h1, h2, noTrapEffect]

/-- Witness for `focus_trap_wrap` on a panel with exactly two focusable
controls. -/
theorem focus_trap_wrap_witness :
    handleKeyDown
        [{ id := 10, kind := ElemKind.button }, { id := 11, kind := ElemKind.input }]
        (some { id := 11, kind := ElemKind.input }) true
        { key := Key.tab, shiftKey := false }
      = { preventDefault := true,
          focusTarget := some { id := 10, kind := ElemKind.button },
          dismissRequested := false }
    ∧ handleKeyDown
        [{ id := 10, kind := ElemKind.button }, { id := 11, kind := ElemKind.input }]
        (some { id := 10, kind := ElemKind.button }) true
        { key := Key.tab, shiftKey := true }
      = { preventDefault := true,
          focusTarget := some { id := 11, kind := ElemKind.input },
          dismissRequested := false } :=
  focus_trap_wrap
    [{ id := 10, kind := ElemKind.button }, { id := 11, kind := ElemKind.input }]
    true { id := 10, kind := ElemKind.button } { id := 11, kind := ElemKind.input }
    rfl rfl

theorem validateFields_marks (fs : List FieldState) :
    ∀ x ∈ (validateFields fs).1,
      isRequired x.field = true → jsTrim x.value = "" → x.errorActive = true := by
  intro x hx hreq htr
  simp only [validateFields, List.mem_map] at hx
  rcases hx with ⟨y, hy, hxy⟩
  by_cases hinv : fieldInvalid y = true
  · rw [if_pos hinv] at hxy
    rw [← hxy]
  · rw [if_neg hinv] at hxy
    subst hxy
    exact absurd (by simp [fieldInvalid, hreq, htr]) hinv

/-- Claim C3: a confirm attempt on a form with at least one required field
blank neither closes the modal nor resolves its promise — validation runs once
over the whole field set and shows the error on every invalid field
simultaneously — while a later confirm attempt with all required fields
non-blank gathers the values, resolves the promise confirmed, and closes. -/
theorem validation_blocks_confirm (s : ModalSession) (hOpen : s.isOpen = true)
    (hPending : s.outcome = none) (hForm : s.hasForm = true) :
    ((∃ x ∈ s.fieldStates, isRequired x.field = true ∧ jsTrim x.value = "") →
      (resolveAndClose true s).isOpen = true
      ∧ (resolveAndClose true s).outcome = none
      ∧ (resolveAndClose true s).fieldStates = (validateFields s.fieldStates).1
      ∧ ∀ x ∈ (resolveAndClose true s).fieldStates,
          isRequired x.field = true → jsTrim x.value = "" → x.errorActive = true)
    ∧ ((∀ x ∈ s.fieldStates, isRequired x.field = true → jsTrim x.value ≠ "") →
      (resolveAndClose true s).isOpen = false
      ∧ (resolveAndClose true s).outcome
          = some { confirmed := true,
                   values := some (gatherValues s.fieldStates) }) := by
  constructor
  · rintro ⟨x, hx, hreq, htr⟩
    have hval := validateFields_invalid_of_mem s.fieldStates x hx hreq htr
    refine ⟨?_, ?_, ?_, ?_⟩
    · simp [resolveAndClose, hForm, hval, hOpen]
    · simp [resolveAndClose, hForm, hval, hPending]
    · simp [resolveAndClose, hForm, hval]
    · have hred : (resolveAndClose true s).fieldStates
          = (validateFields s.fieldStates).1 := by
        simp [resolveAndClose, hForm, hval]
      rw [hred]
      exact validateFields_marks s.fieldStates
  · intro h
    have hvalid := (validateFields_valid_iff s.fieldStates).2 h
    constructor <;>
      simp [resolveAndClose, hForm, hvalid, sessionClose, hOpen,
        gatherValues_validateFields]

/-- Witness for `validation_blocks_confirm`: a required name field left blank
blocks the first confirm and shows its error; after typing a value the second
confirm resolves confirmed with the gathered values. -/
theorem validation_blocks_confirm_witness :
    (resolveAndClose true
        { isOpen := true, outcome := none, hasForm := true, dismissible := true,
          fieldStates :=
            [{ field := { name := "name", label := "Name",
                          type := ModalFieldType.text, required := some true },
               value := "", errorActive := false },
             { field := { name := "dueDate", label := "Due",
                          type := ModalFieldType.date, required := some true,
                          initialValue := some "2025-10-10" },
               value := "2025-10-10", errorActive := false }] }).isOpen = true
    ∧ (resolveAndClose true
        { isOpen := true, outcome := none, hasForm := true, dismissible := true,
          fieldStates :=
            [{ field := { name := "name", label := "Name",
                          type := ModalFieldType.text, required := some true },
               value := "", errorActive := false },
             { field := { name := "dueDate", label := "Due",
                          type := ModalFieldType.date, required := some true,
                          initialValue := some "2025-10-10" },
               value := "2025-10-10", errorActive := false }] }).outcome = none
    ∧ (resolveAndClose true
        { isOpen := true, outcome := none, hasForm := true, dismissible := true,
          fieldStates :=
            [{ field := { name := "name", label := "Name",
                          type := ModalFieldType.text, required := some true },
               value := "Buy milk", errorActive := true },
             { field := { name := "dueDate", label := "Due",
                          type := ModalFieldType.date, required := some true,
                          initialValue := some "2025-10-10" },
               value := "2025-10-10", errorActive := false }] }).isOpen = false
    ∧ (resolveAndClose true
        { isOpen := true, outcome := none, hasForm := true, dismissible := true,
          fieldStates :=
            [{ field := { name := "name", label := "Name",
                          type := ModalFieldType.text, required := some true },
               value := "Buy milk", errorActive := true },
             { field := { name := "dueDate", label := "Due",
                          type := ModalFieldType.date, required := some true,
                          initialValue := some "2025-10-10" },
               value := "2025-10-10", errorActive := false }] }).outcome
        = some { confirmed := true,
                 values := some (gatherValues
                   [{ field := { name := "name", label := "Name",
                                 type := ModalFieldType.text,
                                 required := some true },
                      value := "Buy milk", errorActive := true },
                    { field := { name := "dueDate", label := "Due",
                                 type := ModalFieldType.date,
                                 required := some true,
                                 initialValue := some "2025-10-10" },
                      value := "2025-10-10", errorActive := false }]) } := by
  have hA := (validation_blocks_confirm
    { isOpen := true, outcome := none, hasForm := true, dismissible := true,
      fieldStates :=
        [{ field := { name := "name", label := "Name",
                      type := ModalFieldType.text, required := some true },
           value := "", errorActive := false },
         { field := { name := "dueDate", label := "Due",
                      type := ModalFieldType.date, required := some true,
                      initialValue := some "2025-10-10" },
           value := "2025-10-10", errorActive := false }] } rfl rfl rfl).1
    ⟨{ field := { name := "name", label := "Name",
                  type := ModalFieldType.text, required := some true },
       value := "", errorActive := false },
     by decide, by decide, by decide⟩
  have hB := (validation_blocks_confirm
    { isOpen := true, outcome := none, hasForm := true, dismissible := true,
      fieldStates :=
        [{ field := { name := "name", label := "Name",
                      type := ModalFieldType.text, required := some true },
           value := "Buy milk", errorActive := true },
         { field := { name := "dueDate", label := "Due",
                      type := ModalFieldType.date, required := some true,
                      initialValue := some "2025-10-10" },
           value := "2025-10-10", errorActive := false }] } rfl rfl rfl).2
    (by decide)
  exact ⟨hA.1, hA.2.1, hB.1, hB.2⟩

theorem initialSession_fieldStates (o : ModalOptions) (fl : List ModalField)
    (hf : o.fields = some fl) (hne : fl ≠ []) :
    (initialSession o).fieldStates = fl.map initialFieldState := by
  have hform : hasFormOf o = true := by
    simp [hasFormOf, hf]
    exact List.length_pos.2 hne
  simp [initialSession, hform, hf]

/-- Claim C2 counterexample: an untouched select field with an option list and
no `initialValue` confirms to its first option's value "high" — an entry that
equals neither the field's `initialValue` (which is unset) nor the empty
string, refuting "fields the user never touched map to their initialValue or
the empty string". -/
theorem untouched_select_value_not_initial :
    (resolveAndClose true (initialSession
        { title := "Edit",
          fields := some [{ name := "priority", label := "Priority",
                            type := ModalFieldType.select,
                            options := some [("High", "high")] }] })).outcome
      = some { confirmed := true, values := some [("priority", "high")] }
    ∧ ("high" : String) ≠ ""
    ∧ ({ name := "priority", label := "Priority", type := ModalFieldType.select,
         options := some [("High", "high")] } : ModalField).initialValue
        = none := by
  refine ⟨by decide, by decide, rfl⟩

/-- Claim C2 (amended): for a form request with a non-empty field list of
unique names, every confirm that passes validation resolves
`{confirmed := true}` with a `values` record holding an entry for every
declared field equal to that control's raw current value; an untouched field
therefore maps to its initial control value — `initialValue` or "" for
text/textarea/date fields, and the initially selected option's value for
select fields — while a close with `confirmed = false` carries no `values`. -/
theorem form_outcome_shape (o : ModalOptions) (fl : List ModalField)
    (hf : o.fields = some fl) (hne : fl ≠ [])
    (hnd : (fl.map fun f => f.name).Nodup) :
    (∀ s : ModalSession, s.isOpen = true → s.hasForm = true →
      s.fieldStates.map (fun x => x.field) = fl →
      (validateFields s.fieldStates).2 = true →
      (resolveAndClose true s).outcome
        = some { confirmed := true, values := some (gatherValues s.fieldStates) }
      ∧ ∀ x ∈ s.fieldStates,
          recordGet (gatherValues s.fieldStates) x.field.name = some x.value)
    ∧ (resolveAndClose false (initialSession o)).outcome
        = some { confirmed := false, values := none }
    ∧ ∀ f ∈ fl, recordGet (gatherValues (initialSession o).fieldStates) f.name
        = some (initialControlValue f) := by
  refine ⟨?_, ?_, ?_⟩
  · intro s hOpen hForm hmap hvalid
    constructor
    · simp [resolveAndClose, hForm, hvalid, sessionClose, hOpen,
        gatherValues_validateFields]
    · intro x hx
      have hnames : s.fieldStates.map (fun x => x.field.name)
          = fl.map (fun f => f.name) := by
        rw [← hmap, List.map_map]
        rfl
      have hnd2 : (s.fieldStates.map fun x => x.field.name).Nodup := by
        rw [hnames]; exact hnd
      exact gatherValues_nodup_get s.fieldStates hnd2 x hx
  · simp [resolveAndClose, sessionClose, initialSession]
  · intro f hfm
    have hfsEq := initialSession_fieldStates o fl hf hne
    have hx : initialFieldState f ∈ (initialSession o).fieldStates := by
      rw [hfsEq]
      exact List.mem_map_of_mem initialFieldState hfm
    have hnd2 : ((initialSession o).fieldStates.map fun x => x.field.name).Nodup := by
      rw [hfsEq, List.map_map]
      simpa [Function.comp, initialFieldState] using hnd
    have h := gatherValues_nodup_get (initialSession o).fieldStates hnd2
      (initialFieldState f) hx
    simpa [initialFieldState] using h

/-- Witness for `form_outcome_shape` on a one-field text form confirmed
untouched. -/
theorem form_outcome_shape_witness :
    (resolveAndClose true (initialSession
        { title := "Add",
          fields := some [{ name := "n", label := "N",
                            type := ModalFieldType.text }] })).outcome
      = some { confirmed := true,
               values := some (gatherValues (initialSession
                 { title := "Add",
                   fields := some [{ name := "n", label := "N",
                                     type := ModalFieldType.text }] }).fieldStates) }
    ∧ (resolveAndClose false (initialSession
        { title := "Add",
          fields := some [{ name := "n", label := "N",
                            type := ModalFieldType.text }] })).outcome
      = some { confirmed := false, values := none }
    ∧ recordGet
        (gatherValues (initialSession
          { title := "Add",
            fields := some [{ name := "n", label := "N",
                              type := ModalFieldType.text }] }).fieldStates) "n"
      = some (initialControlValue
          { name := "n", label := "N", type := ModalFieldType.text }) := by
  have h := form_outcome_shape
    { title := "Add",
      fields := some [{ name := "n", label := "N",
                        type := ModalFieldType.text }] }
    [{ name := "n", label := "N", type := ModalFieldType.text }]
    rfl (by decide) (by decide)
  refine ⟨?_, h.2.1, ?_⟩
  · exact (h.1 (initialSession
      { title := "Add",
        fields := some [{ name := "n", label := "N",
                          type := ModalFieldType.text }] })
      rfl rfl rfl (by decide)).1
  · exact h.2.2 { name := "n", label := "N", type := ModalFieldType.text }
      (List.mem_singleton.2 rfl)

theorem closeStep_inactive (s : CoordState) (r : ModalResult)
    (h : s.activeModal = none) : closeStep r s = s := by
  simp [closeStep, h]

/-- The host element mirrors the active-modal slot: the only mounted overlay
is the active one. -/
def HostInv (s : CoordState) : Prop :=
  s.hostChildren = s.activeModal.toList

theorem hostInv_init : HostInv initState := rfl

theorem hostInv_step (s : CoordState) (e : Event) (h : HostInv s) :
    HostInv (step s e) := by
  cases e with
  | openReq i =>
      cases ha : s.activeModal with
      | none =>
          have hh : s.hostChildren = [] := by simpa [HostInv, ha] using h
          simp [step, openStep, ha, startModal, HostInv, hh]
      | some a =>
          have hh : s.hostChildren = [a] := by simpa [HostInv, ha] using h
          simp [step, openStep, ha, HostInv, hh]
  | closeReq r =>
      cases ha : s.activeModal with
      | none => simpa [step, closeStep, ha, HostInv] using h
      | some m =>
          have hh : s.hostChildren = [m] := by simpa [HostInv, ha] using h
          cases hres : s.activeResolver with
          | none =>
              cases hq : s.modalQueue with
              | nil => simp [step, closeStep, ha, hres, hq, HostInv, hh]
              | cons nxt rest =>
                  simp [step, closeStep, startModal, ha, hres, hq, HostInv, hh]
          | some rv =>
              cases hq : s.modalQueue with
              | nil => simp [step, closeStep, ha, hres, hq, HostInv, hh]
              | cons nxt rest =>
                  simp [step, closeStep, startModal, ha, hres, hq, HostInv, hh]

theorem scanl_hostInv (evs : List Event) :
    ∀ s : CoordState, HostInv s → ∀ t ∈ List.scanl step s evs, HostInv t := by
  induction evs with
  | nil =>
      intro s h t ht
      simp [List.scanl] at ht
      subst ht
      exact h
  | cons e evs2 ih =>
      intro s h t ht
      rw [List.scanl_cons] at ht
      rcases List.mem_cons.1 ht with rfl | ht2
      · exact h
      · exact ih (step s e) (hostInv_step s e h) t ht2

theorem foldl_open_active (ids : List Nat) :
    ∀ (s : CoordState) (a : Nat), s.activeModal = some a →
      List.foldl step s (ids.map Event.openReq)
        = { s with modalQueue := s.modalQueue ++ ids } := by
  induction ids with
  | nil => intro s a h; simp
  | cons i t ih =>
      intro s a h
      rw [List.map_cons, List.foldl_cons]
      have hstep : step s (Event.openReq i)
          = { s with modalQueue := s.modalQueue ++ [i] } := by
        simp [step, openStep, h]
      rw [hstep, ih { s with modalQueue := s.modalQueue ++ [i] } a h]
      simp

theorem run_opens (i : Nat) (ids : List Nat) :
    run ((i :: ids).map Event.openReq)
      = { hostChildren := [i], activeModal := some i, activeResolver := some i,
          modalQueue := ids, resolved := [] } := by
  rw [run, List.map_cons, List.foldl_cons]
  have h1 : step initState (Event.openReq i)
      = { hostChildren := [i], activeModal := some i, activeResolver := some i,
          modalQueue := [], resolved := [] } := rfl
  rw [h1, foldl_open_active ids _ i rfl]
  simp

theorem foldl_close_drain (rs : List ModalResult) :
    ∀ (a : Nat) (q : List Nat) (R : List (Nat × ModalResult)),
      rs.length = q.length + 1 →
      List.foldl step
        { hostChildren := [a], activeModal := some a, activeResolver := some a,
          modalQueue := q, resolved := R } (rs.map Event.closeReq)
        = { hostChildren := [], activeModal := none, activeResolver := none,
            modalQueue := [], resolved := R ++ (a :: q).zip rs } := by
  induction rs with
  | nil => intro a q R h; simp at h
  | cons r rs2 ih =>
      intro a q R h
      rw [List.map_cons, List.foldl_cons]
      cases q with
      | nil =>
          have hrs : rs2 = [] := by simpa using h
          subst hrs
          simp [step, closeStep]
      | cons nxt rest =>
          have hstep : step
              { hostChildren := [a], activeModal := some a,
                activeResolver := some a, modalQueue := nxt :: rest,
                resolved := R } (Event.closeReq r)
              = { hostChildren := [nxt], activeModal := some nxt,
                  activeResolver := some nxt, modalQueue := rest,
                  resolved := R ++ [(a, r)] } := by
            simp [step, closeStep, startModal]
          rw [hstep, ih nxt rest (R ++ [(a, r)]) (by simpa using h)]
          simp

/-- Claim C1: for a sequence of `N ≥ 2` open requests issued before any close,
at most one overlay is ever mounted in the host at any instant of the whole
trace; the first request starts immediately and every later one sits in
`modalQueue` in arrival order; and the `N` closes that follow pop exactly the
head of the queue each time, resolving all `N` requests in enqueue (FIFO)
order. -/
theorem modal_queue_fifo (i : Nat) (ids : List Nat) (rs : List ModalResult)
    (_hN : 1 ≤ ids.length) (hlen : rs.length = ids.length + 1) :
    (∀ t ∈ List.scanl step initState
        ((i :: ids).map Event.openReq ++ rs.map Event.closeReq),
      t.hostChildren.length ≤ 1)
    ∧ run ((i :: ids).map Event.openReq)
        = { hostChildren := [i], activeModal := some i, activeResolver := some i,
            modalQueue := ids, resolved := [] }
    ∧ run ((i :: ids).map Event.openReq ++ rs.map Event.closeReq)
        = { hostChildren := [], activeModal := none, activeResolver := none,
            modalQueue := [], resolved := (i :: ids).zip rs } := by
  refine ⟨?_, run_opens i ids, ?_⟩
  · intro t ht
    have hInv := scanl_hostInv _ initState hostInv_init t ht
    rw [HostInv] at hInv
    rw [hInv]
    cases t.activeModal <;> simp
  · rw [run, List.foldl_append]
    have h2 : List.foldl step initState ((i :: ids).map Event.openReq)
        = { hostChildren := [i], activeModal := some i, activeResolver := some i,
            modalQueue := ids, resolved := [] } := run_opens i ids
    rw [h2, foldl_close_drain rs i ids [] hlen]
    simp

/-- Witness for `modal_queue_fifo`: two alerts fired back to back, then two
closes; both resolve, in order. -/
theorem modal_queue_fifo_witness :
    (∀ t ∈ List.scanl step initState
        (([0, 1] : List Nat).map Event.openReq
          ++ ([{ confirmed := true, values := none },
               { confirmed := false, values := none }] : List ModalResult).map
              Event.closeReq),
      t.hostChildren.length ≤ 1)
    ∧ run (([0, 1] : List Nat).map Event.openReq)
        = { hostChildren := [0], activeModal := some 0, activeResolver := some 0,
            modalQueue := [1], resolved := [] }
    ∧ run (([0, 1] : List Nat).map Event.openReq
          ++ ([{ confirmed := true, values := none },
               { confirmed := false, values := none }] : List ModalResult).map
              Event.closeReq)
        = { hostChildren := [], activeModal := none, activeResolver := none,
            modalQueue := [],
            resolved := [(0, { confirmed := true, values := none }),
                         (1, { confirmed := false, values := none })] } := by
  have h := modal_queue_fifo 0 [1]
    [{ confirmed := true, values := none }, { confirmed := false, values := none }]
    (by decide) (by decide)
  exact ⟨h.1, h.2.1, h.2.2⟩

/-- Ids owed a resolution or already resolved are pairwise distinct and all
drawn from the requests opened so far, and the resolver slot always mirrors
the active-modal slot. -/
def ResolveInv (opened : List Nat) (s : CoordState) : Prop :=
  s.activeResolver = s.activeModal ∧ (liveIds s).Nodup
    ∧ ∀ x ∈ liveIds s, x ∈ opened

theorem resolveInv_init : ResolveInv [] initState :=
  ⟨rfl, by simp [liveIds, initState], by simp [liveIds, initState]⟩

theorem resolveInv_open (opened : List Nat) (s : CoordState) (i : Nat)
    (h : ResolveInv opened s) (hfresh : i ∉ opened) :
    ResolveInv (opened ++ [i]) (step s (Event.openReq i)) := by
  obtain ⟨hres, hnd, hsub⟩ := h
  have hni : i ∉ liveIds s := fun hmem => hfresh (hsub i hmem)
  cases ha : s.activeModal with
  | none =>
      have hstep : step s (Event.openReq i) = startModal i s := by
        simp [step, openStep, ha]
      have hlivold : liveIds s = s.resolved.map Prod.fst ++ s.modalQueue := by
        simp [liveIds, ha]
      have h1 : liveIds (startModal i s)
          = s.resolved.map Prod.fst ++ i :: s.modalQueue := by
        simp [liveIds, startModal]
      rw [hstep]
      refine ⟨rfl, ?_, ?_⟩
      · rw [h1, List.nodup_middle, List.nodup_cons]
        exact ⟨by rw [← hlivold]; exact hni, by rw [← hlivold]; exact hnd⟩
      · intro x hx
        rw [h1] at hx
        rcases List.mem_append.1 hx with hx1 | hx2
        · exact List.mem_append_left _
            (hsub x (by rw [hlivold]; exact List.mem_append_left _ hx1))
        · rcases List.mem_cons.1 hx2 with rfl | hx3
          · exact List.mem_append_right _ (List.mem_singleton.2 rfl)
          · exact List.mem_append_left _
              (hsub x (by rw [hlivold]; exact List.mem_append_right _ hx3))
  | some a =>
      have hstep : step s (Event.openReq i)
          = { s with modalQueue := s.modalQueue ++ [i] } := by
        simp [step, openStep, ha]
      have h1 : liveIds { s with modalQueue := s.modalQueue ++ [i] }
          = liveIds s ++ [i] := by
        simp [liveIds, List.append_assoc]
      rw [hstep]
      refine ⟨hres, ?_, ?_⟩
      · rw [h1, List.nodup_append]
        exact ⟨hnd, List.nodup_singleton i,
          fun y hy hyi => hni ((List.mem_singleton.1 hyi) ▸ hy)⟩
      · intro x hx
        rw [h1] at hx
        rcases List.mem_append.1 hx with hx1 | hx2
        · exact List.mem_append_left _ (hsub x hx1)
        · exact List.mem_append_right _ hx2

theorem resolveInv_close (opened : List Nat) (s : CoordState) (r : ModalResult)
    (h : ResolveInv opened s) : ResolveInv opened (step s (Event.closeReq r)) := by
  obtain ⟨hres, hnd, hsub⟩ := h
  cases ha : s.activeModal with
  | none =>
      have hstep : step s (Event.closeReq r) = s := by
        simp [step, closeStep, ha]
      rw [hstep]
      exact ⟨hres, hnd, hsub⟩
  | some m =>
      have hress : s.activeResolver = some m := by rw [hres, ha]
      cases hq : s.modalQueue with
      | nil =>
          have hlive : liveIds (step s (Event.closeReq r)) = liveIds s := by
            simp [step, closeStep, liveIds, ha, hress, hq]
          have hra : (step s (Event.closeReq r)).activeResolver
              = (step s (Event.closeReq r)).activeModal := by
            simp [step, closeStep, ha, hress, hq]
          exact ⟨hra, by rw [hlive]; exact hnd,
            fun x hx => hsub x (by rwa [hlive] at hx)⟩
      | cons nxt rest =>
          have hlive : liveIds (step s (Event.closeReq r)) = liveIds s := by
            simp [step, closeStep, startModal, liveIds, ha, hress, hq,
              List.append_assoc]
          have hra : (step s (Event.closeReq r)).activeResolver
              = (step s (Event.closeReq r)).activeModal := by
            simp [step, closeStep, startModal, ha, hress, hq]
          exact ⟨hra, by rw [hlive]; exact hnd,
            fun x hx => hsub x (by rwa [hlive] at hx)⟩

theorem resolveInv_run_aux (evs : List Event) :
    ∀ (s : CoordState) (opened : List Nat), ResolveInv opened s →
      (opened ++ openIds evs).Nodup →
      ResolveInv (opened ++ openIds evs) (List.foldl step s evs) := by
  induction evs with
  | nil =>
      intro s opened h _
      simpa [openIds] using h
  | cons e evs2 ih =>
      intro s opened h hnd
      cases e with
      | openReq i =>
          have hids : openIds (Event.openReq i :: evs2) = i :: openIds evs2 := by
            simp [openIds]
          rw [hids] at hnd
          have hdisj := List.disjoint_of_nodup_append hnd
          have hfresh : i ∉ opened :=
            fun hmem => hdisj hmem (List.mem_cons_self i (openIds evs2))
          have h2 := resolveInv_open opened s i h hfresh
          have hnd2 : ((opened ++ [i]) ++ openIds evs2).Nodup := by
            rw [List.append_assoc]
            simpa using hnd
          have h3 := ih (step s (Event.openReq i)) (opened ++ [i]) h2 hnd2
          rw [List.foldl_cons, hids, ← List.singleton_append, ← List.append_assoc]
          exact h3
      | closeReq r =>
          have hids : openIds (Event.closeReq r :: evs2) = openIds evs2 := by
            simp [openIds]
          rw [hids] at hnd
          have h2 := resolveInv_close opened s r h
          have h3 := ih (step s (Event.closeReq r)) opened h2 hnd
          rw [List.foldl_cons, hids]
          exact h3

/-- Claim C4: every opened modal's promise resolves at most once —
`closeModal` returns unchanged when no modal is active, and since the resolver
slot is cleared before it is invoked and each close hands the slot to the next
queued request, no trace of open and close events over distinct request ids
ever logs the same request's resolution twice. -/
theorem close_idempotent_single_resolution :
    (∀ (s : CoordState) (r : ModalResult), s.activeModal = none →
      closeStep r s = s)
    ∧ ∀ evs : List Event, (openIds evs).Nodup →
      ((run evs).resolved.map Prod.fst).Nodup := by
  constructor
  · intro s r h
    exact closeStep_inactive s r h
  · intro evs hnd
    have h := resolveInv_run_aux evs initState [] resolveInv_init
      (by simpa using hnd)
    have hnd2 := h.2.1
    have hnd3 : ((List.foldl step initState evs).resolved.map Prod.fst
        ++ ((List.foldl step initState evs).activeModal.toList
          ++ (List.foldl step initState evs).modalQueue)).Nodup := by
      have heq : liveIds (List.foldl step initState evs)
          = (List.foldl step initState evs).resolved.map Prod.fst
            ++ ((List.foldl step initState evs).activeModal.toList
              ++ (List.foldl step initState evs).modalQueue) := by
        simp [liveIds, List.append_assoc]
      rw [← heq]
      exact hnd2
    exact List.Nodup.of_append_left hnd3

/-- Witness for `close_idempotent_single_resolution`: a stale second close
between two dialogs is a no-op, and the trace resolves each request once. -/
theorem close_idempotent_single_resolution_witness :
    closeStep { confirmed := false, values := none } initState = initState
    ∧ ((run [Event.openReq 0,
             Event.closeReq { confirmed := true, values := none },
             Event.closeReq { confirmed := false, values := none },
             Event.openReq 1,
             Event.closeReq { confirmed := false, values := none }]).resolved.map
          Prod.fst).Nodup := by
  constructor
  · exact close_idempotent_single_resolution.1 initState
      { confirmed := false, values := none } rfl
  · exact close_idempotent_single_resolution.2
      [Event.openReq 0,
       Event.closeReq { confirmed := true, values := none },
       Event.closeReq { confirmed := false, values := none },
       Event.openReq 1,
       Event.closeReq { confirmed := false, values := none }] (by decide)
